import Mathlib

/-!
Verification of the rule-driven event-response engine (planner, priority
scorer, error-signature memory helper, and action executor) against its
natural-language specification.

The Python sources are shallowly embedded as Lean definitions:

* Python dictionaries with string keys become association lists
  (`Payload := List (String × Val)`), where `Val` models the JSON-like
  values the engine actually stores and reads (strings, integers,
  booleans, `None`, and lists of strings).
* Machine integers are modelled as `Int` (no overflow is relevant:
  priorities live in a tiny range).
* Fallible Python code (a raised exception) is modelled with
  `Except`/`Option`; a bare `try/except` that substitutes a default is
  modelled by matching on the `Option`.
* `json.loads` of an incoming payload string is external input
  processing: a scorer or memory function that first parses its payload
  takes the parse result as `Option Payload` (`none` models a string
  that does not parse into a key-value mapping).
-/

namespace Synaptix

/-- JSON-like values stored in event payloads and action parameters. -/
inductive Val where
  | str (s : String)
  | num (n : Int)
  | bool (b : Bool)
  | null
  | strList (xs : List String)
deriving DecidableEq, Repr

/-- A Python dict with string keys, as an association list. -/
def Payload := List (String × Val)

instance : DecidableEq Payload := inferInstanceAs (DecidableEq (List (String × Val)))

/-- Models Python `d.get(key)` (returns `None`, i.e. `none`, when absent). -/
def pyGet (p : Payload) (key : String) : Option Val :=
  match p.find? (fun kv => kv.1 = key) with
  | some kv => some kv.2
  | none => none

/-- Models Python `d.get(key, default)`. -/
def pyGetD (p : Payload) (key : String) (default : Val) : Val :=
  (pyGet p key).getD default

/-- Python truthiness of a `Val` (used by the `or` idiom and `if v:`). -/
def pyTruthy : Val → Bool
  | Val.str s => s ≠ ""
  | Val.num n => n ≠ 0
  | Val.bool b => b
  | Val.null => false
  | Val.strList xs => xs ≠ []

/-- Models Python `a or b` on payload values: `b` when `a` is falsy. -/
def pyOr (a b : Val) : Val := if pyTruthy a then a else b

/-- Is `needle` a contiguous sublist of the second argument? -/
def listContainsSub (needle : List Char) : List Char → Bool
  | [] => needle.isPrefixOf []
  | c :: cs => needle.isPrefixOf (c :: cs) || listContainsSub needle cs

/-- Models Python substring membership `needle in hay`. -/
def strContainsSub (hay needle : String) : Bool :=
  listContainsSub needle.toList hay.toList

/-- Models Python `s.lower()` (ASCII case folding suffices here). -/
def pyLower (s : String) : String := String.mk (s.toList.map Char.toLower)

/-- Python repr of a value, as it appears inside `str(dict)`. -/
def Val.pyRepr : Val → String
  | Val.str s => "\x27" ++ s ++ "\x27"
  | Val.num n => toString n
  | Val.bool b => if b then "True" else "False"
  | Val.null => "None"
  | Val.strList xs =>
      "[" ++ String.intercalate ", " (xs.map (fun s => "\x27" ++ s ++ "\x27")) ++ "]"

/-- Python `str(v)` as used in f-string interpolation. -/
def Val.pyStr : Val → String
  | Val.str s => s
  | v => v.pyRepr

/-- Models Python `str(d)` for a dict: the stringified payload. -/
def Payload.pyStr (p : Payload) : String :=
  "\x7b" ++
    String.intercalate ", "
      (p.map (fun kv => "\x27" ++ kv.1 ++ "\x27: " ++ kv.2.pyRepr)) ++
    "\x7d"

/-- JSON serialisation of a value, models `json.dumps` on payload values. -/
def Val.jsonDump : Val → String
  | Val.str s => "\"" ++ s ++ "\""
  | Val.num n => toString n
  | Val.bool b => if b then "true" else "false"
  | Val.null => "null"
  | Val.strList xs =>
      "[" ++ String.intercalate ", " (xs.map (fun s => "\"" ++ s ++ "\"")) ++ "]"

/-- Models `json.dumps(event_data)` for a payload dict. -/
def jsonDumps (p : Payload) : String :=
  "\x7b" ++
    String.intercalate ", "
      (p.map (fun kv => "\"" ++ kv.1 ++ "\": " ++ kv.2.jsonDump)) ++
    "\x7d"

/-! ## Planner data model (src/planner.py) -/

/-- Enumeration of available action types (planner.py, class ActionType). -/
inductive ActionType where
  | create_task
  | notify
  | escalate
  | schedule
  | monitor
  | block_deployment
  | aggregate
  | auto_fix
  | request_review
deriving DecidableEq, Repr

/-- Structured action representation (planner.py, dataclass Action).
The `priority` field is the severity label string of the source. -/
structure Action where
  type : ActionType
  priority : String
  params : List (String × Val)
  reasoning : String
deriving DecidableEq, Repr

/-- One entry of the planner's rule table (planner.py, initial rules). -/
structure Rule where
  priority_threshold : Int
  actions : List String
  escalation_condition : Nat → Bool

/-- The decision-rule table built in the planner's constructor
(planner.py, lines 48-79); unknown event types have no entry. -/
def action_rules (event_type : String) : Option Rule :=
  if event_type = "error" then
    some ⟨7, ["create_task", "notify"], fun count => count ≥ 3⟩
  else if event_type = "security_alert" then
    some ⟨0, ["create_task", "notify", "block_deployment"], fun _ => true⟩
  else if event_type = "test_failure" then
    some ⟨6, ["create_task"], fun count => count ≥ 5⟩
  else if event_type = "deployment" then
    some ⟨5, ["monitor", "create_task"], fun _ => false⟩
  else if event_type = "code_review" then
    some ⟨6, ["schedule"], fun count => count ≥ 10⟩
  else
    none

/-- Who gets the task (planner.py, determine-assignee helper). -/
def determine_assignee (event_type : String) (_event_data : Payload) : String :=
  if event_type = "security_alert" then "security_team"
  else if event_type = "deployment" then "devops_team"
  else if strContainsSub event_type "test" then "qa_team"
  else "oncall_engineer"

/-- Severity label from the integer priority (planner.py, priority_map). -/
def priorityLabel (priority : Int) : String :=
  if priority = 10 ∨ priority = 9 then "critical"
  else if priority = 8 ∨ priority = 7 then "high"
  else if priority = 6 ∨ priority = 5 then "medium"
  else "low"

/-- Task title per event type (planner.py, title_map with its default). -/
def taskTitle (event_type : String) (event_data : Payload) : String :=
  if event_type = "error" then
    "Fix: " ++ (pyGetD event_data "message" (Val.str "Unknown error")).pyStr
  else if event_type = "test_failure" then
    "Test failed: " ++ (pyGetD event_data "test_name" (Val.str "unknown")).pyStr
  else if event_type = "security_alert" then
    "Security: " ++ (pyGetD event_data "alert_type" (Val.str "unknown")).pyStr
  else if event_type = "deployment" then
    "Verify deployment: " ++ (pyGetD event_data "service" (Val.str "unknown")).pyStr
  else
    "Handle " ++ event_type

/-- Plan task creation action (planner.py, lines 144-178). -/
def plan_task_creation (event_type : String) (event_data : Payload)
    (priority : Int) : Action :=
  { type := ActionType.create_task
    priority := priorityLabel priority
    params :=
      [("title", Val.str (taskTitle event_type event_data)),
       ("description", Val.str (jsonDumps event_data)),
       ("labels", Val.strList [event_type, "automated"]),
       ("assignee", Val.str (determine_assignee event_type event_data))]
    reasoning := "Event priority " ++ toString priority ++ " requires task tracking" }

/-- Notification message formatting (planner.py, lines 359-371). -/
def format_notification_message (event_type : String) (event_data : Payload) :
    String :=
  if event_type = "security_alert" then
    "🚨 Security Alert: " ++ (pyGetD event_data "alert_type" Val.null).pyStr ++
      " - " ++ (pyGetD event_data "details" Val.null).pyStr
  else if event_type = "error" then
    "❌ Error: " ++ (pyGetD event_data "message" Val.null).pyStr ++
      " in " ++ (pyGetD event_data "service" Val.null).pyStr
  else
    "⚠️ " ++ event_type ++ ": " ++ (jsonDumps event_data).take 100

/-- Notification channel per event type (planner.py, channel_map). -/
def notifyChannel (event_type : String) (priority : Int) : String :=
  if event_type = "security_alert" then "security"
  else if event_type = "error" then (if priority ≥ 9 then "urgent" else "alerts")
  else if event_type = "deployment" then "deployments"
  else "general"

/-- Plan notification action (planner.py, lines 180-203). -/
def plan_notification (event_type : String) (event_data : Payload)
    (priority : Int) : Action :=
  { type := ActionType.notify
    priority := if priority ≥ 8 then "high" else "medium"
    params :=
      [("channel", Val.str (notifyChannel event_type priority)),
       ("message", Val.str (format_notification_message event_type event_data)),
       ("mention", if priority ≥ 9 then Val.str "oncall" else Val.null)]
    reasoning := "High priority event (" ++ toString priority ++
      ") requires immediate notification" }

/-- Plan escalation action (planner.py, lines 205-222). -/
def plan_escalation (event_type : String) (_event_data : Payload)
    (event_count : Nat) : Action :=
  { type := ActionType.escalate
    priority := "high"
    params :=
      [("reason", Val.str ("Repeated " ++ event_type ++ " detected (" ++
        toString event_count ++ " occurrences)")),
       ("escalate_to", Val.str "engineering_manager"),
       ("include_data", Val.bool true)]
    reasoning := "Event count " ++ toString event_count ++ " exceeds threshold" }

/-- Plan scheduling action (planner.py, lines 224-241). -/
def plan_scheduling (event_type : String) (event_data : Payload) : Action :=
  { type := ActionType.schedule
    priority := "medium"
    params :=
      [("activity", Val.str event_type),
       ("resource_id",
        pyOr (pyGetD event_data "pr_id" Val.null)
          (pyGetD event_data "issue_id" Val.null)),
       ("time_slot", Val.str "next_available"),
       ("duration", Val.str "30m")]
    reasoning := "Scheduling required for code review workflow" }

/-- Plan monitoring action (planner.py, lines 243-260). -/
def plan_monitoring (_event_type : String) (event_data : Payload) : Action :=
  { type := ActionType.monitor
    priority := "medium"
    params :=
      [("target", pyGetD event_data "service" (Val.str "unknown")),
       ("metrics", Val.strList ["error_rate", "latency", "cpu", "memory"]),
       ("duration", Val.str "30m"),
       ("alert_threshold", Val.str "high")]
    reasoning := "Post-deployment monitoring required" }

/-- Plan deployment blocking action (planner.py, lines 262-278). -/
def plan_deployment_block (_event_type : String) (event_data : Payload) :
    Action :=
  { type := ActionType.block_deployment
    priority := "critical"
    params :=
      [("reason", Val.str ("Security alert: " ++
        (pyGetD event_data "alert_type" Val.null).pyStr)),
       ("affected_services", pyGetD event_data "affected_services" (Val.strList [])),
       ("until_resolved", Val.bool true)]
    reasoning := "Security vulnerability requires deployment freeze" }

/-- Plan aggregation action for related events (planner.py, lines 280-298). -/
def plan_aggregation (event_type : String) (_event_data : Payload)
    (event_count : Nat) : Action :=
  { type := ActionType.aggregate
    priority := "medium"
    params :=
      [("action", Val.str "create_epic"),
       ("event_type", Val.str event_type),
       ("count", Val.num (event_count : Int)),
       ("title", Val.str ("Recurring " ++ event_type ++ " pattern"))]
    reasoning := "Multiple related events (" ++ toString event_count ++
      ") suggest larger issue" }

/-- Fix-type inference by keyword search (planner.py, lines 336-344). -/
def identify_fix_type (event_data : Payload) : String :=
  if strContainsSub (pyLower event_data.pyStr) "dependency" then "dependency_update"
  else if strContainsSub (pyLower event_data.pyStr) "config" then "config_correction"
  else "generic_fix"

/-- Plan automatic fix action (planner.py, lines 300-316). -/
def plan_auto_fix (_event_type : String) (event_data : Payload) : Action :=
  { type := ActionType.auto_fix
    priority := "high"
    params :=
      [("fix_type", Val.str (identify_fix_type event_data)),
       ("automatic", Val.bool true),
       ("create_pr", Val.bool true)]
    reasoning := "Known issue with automated fix available" }

/-- True exactly when the auto-fix eligibility check raises: planner.py
line 334 evaluates the dict lookup auto_fixable.get(issue_type, False),
which hashes issue_type, and a list value (the only unhashable value in
this payload domain) raises TypeError, which propagates out of plan.
See planExc for the resulting behaviour of the plan method. -/
def autoFixRaises (event_data : Payload) : Bool :=
  match pyOr (pyGetD event_data "alert_type" Val.null)
      (pyGetD event_data "error_type" Val.null) with
  | Val.strList _ => true
  | _ => false

/-- Auto-fix eligibility (planner.py, lines 318-334): the alert or error
type must be in the fixed auto-fixable set and the count at least 2.
This is the value the check returns when it does not raise, i.e. on the
domain where autoFixRaises is false; the raising inputs are handled by
planExc. -/
def can_auto_fix (_event_type : String) (event_data : Payload)
    (event_count : Nat) : Bool :=
  let issue_type :=
    pyOr (pyGetD event_data "alert_type" Val.null)
      (pyGetD event_data "error_type" Val.null)
  (issue_type = Val.str "dependency_vulnerability" ∨
   issue_type = Val.str "formatting_error" ∨
   issue_type = Val.str "configuration_drift") ∧ event_count ≥ 2

/-- Default plan for unrecognized event types (planner.py, lines 373-391). -/
def default_plan (event_type : String) (event_data : Payload) : List Action :=
  [{ type := ActionType.create_task
     priority := "low"
     params :=
       [("title", Val.str ("Review " ++ event_type)),
        ("description", Val.str (jsonDumps event_data)),
        ("labels", Val.strList [event_type, "automated", "review"])]
     reasoning := "Unrecognized event type - creating task for review" }]

/-- Main planning method (planner.py, lines 81-142). The memory context
dict only ever contributes `event_count` (with default 1 applied by the
caller), so it is passed directly. -/
def plan (event_type : String) (event_data : Payload) (priority : Int)
    (event_count : Nat) : List Action :=
  match action_rules event_type with
  | none => default_plan event_type event_data
  | some rules =>
    if priority < rules.priority_threshold then []
    else
      (if rules.actions.contains "create_task" then
        [plan_task_creation event_type event_data priority] else [])
      ++ (if rules.actions.contains "notify" ∧ priority ≥ 8 then
        [plan_notification event_type event_data priority] else [])
      ++ (if rules.actions.contains "schedule" then
        [plan_scheduling event_type event_data] else [])
      ++ (if rules.actions.contains "monitor" then
        [plan_monitoring event_type event_data] else [])
      ++ (if rules.actions.contains "block_deployment" then
        [plan_deployment_block event_type event_data] else [])
      ++ (if rules.escalation_condition event_count then
        [plan_escalation event_type event_data event_count] else [])
      ++ (if event_count ≥ 3 ∧ (event_type = "issue_created" ∨ event_type = "test_failure") then
        [plan_aggregation event_type event_data event_count] else [])
      ++ (if can_auto_fix event_type event_data event_count then
        [plan_auto_fix event_type event_data] else [])

/-- The plan method as actually callable (planner.py, lines 81-142): on
the rule-bearing path past the priority threshold the auto-fix
eligibility check of line 139 is always reached, and when it hashes a
list-valued alert_type or error_type (planner.py line 334) the TypeError
propagates out of plan, discarding the actions built so far and
returning nothing; in every other case plan returns the action list
modelled by the total function above (the no-rule default path and the
below-threshold path return before any fallible call). -/
def planExc (event_type : String) (event_data : Payload) (priority : Int)
    (event_count : Nat) : Except String (List Action) :=
  match action_rules event_type with
  | none => Except.ok (default_plan event_type event_data)
  | some rules =>
    if priority < rules.priority_threshold then Except.ok []
    else if autoFixRaises event_data then
      Except.error "TypeError: unhashable type: \x27list\x27"
    else Except.ok (plan event_type event_data priority event_count)

/-! ## Priority scorer (src/agent_simple.py lines 91-116, src/agent.py
lines 104-126)

Both orchestrators compute the same score from the parsed payload; they
differ only in how an unparsable payload string is treated, so the shared
body is factored out. The scorer's input payload string has already been
run through the external JSON parser: `none` models a string that does
not parse. -/

/-- Fixed base priority per event type (priority_map in the sources). -/
def priorityBase (event_type : String) : Int :=
  if event_type = "error" then 10
  else if event_type = "security_alert" then 10
  else if event_type = "test_failure" then 8
  else if event_type = "deployment" then 7
  else if event_type = "code_review" then 6
  else if event_type = "commit" then 5
  else if event_type = "issue_created" then 4
  else if event_type = "file_change" then 3
  else 5

/-- The urgency keyword set shared by both scorers. -/
def urgent_keywords : List String := ["critical", "urgent", "blocker", "security"]

/-- Does the stringified payload contain an urgency keyword,
case-insensitively (the keyword scan of both scorers)? -/
def urgentKeywordHit (s : String) : Bool :=
  urgent_keywords.any (fun kw => strContainsSub (pyLower s) kw)

/-- Score of a successfully parsed payload: shared body of both
calculate-priority methods. -/
def scoreParsed (event_type : String) (data_dict : Payload) : Int :=
  let base_priority := priorityBase event_type
  if urgentKeywordHit data_dict.pyStr then min 10 (base_priority + 3)
  else base_priority

/-- The simplified orchestrator's scorer (agent_simple.py lines 91-116):
a payload string that fails to parse is replaced by an empty mapping by
the try/except, so the function is total. -/
def calculate_priority (event_type : String) (data : Option Payload) : Int :=
  scoreParsed event_type (data.getD [])

/-- The full orchestrator's scorer (agent.py lines 104-126): json.loads
is called without a handler, so a payload string that fails to parse
raises and no score is produced (modelled by `none`). -/
def calculate_priority_full (event_type : String) (data : Option Payload) :
    Option Int :=
  data.map (scoreParsed event_type)

/-! ## Error-signature memory helper (src/memory.py lines 119-137) -/

/-- Python `s.split(sep)` on character lists: greedy split at every
separator occurrence, never returns an empty list of groups. -/
def pySplitCh (sep : Char) : List Char → List (List Char)
  | [] => [[]]
  | c :: cs =>
    let rest := pySplitCh sep cs
    if c = sep then [] :: rest
    else (c :: rest.headD []) :: rest.tail

/-- Extract a signature from error data for grouping (memory.py lines
119-137). The input is the parse result of the payload string: `none`
models a string that does not parse into a key-value mapping; a
non-string `message` or `service` value makes the string operations or
the join raise, which the bare except also maps to "unknown". -/
def extract_error_signature (data : Option Payload) : String :=
  match data with
  | none => "unknown"
  | some data_dict =>
    match pyGetD data_dict "message" (Val.str ""),
          pyGetD data_dict "service" (Val.str "unknown") with
    | Val.str message, Val.str service =>
      let part :=
        if message.toList.contains ':' then
          ((pySplitCh ':' message.toList).headD []).asString
        else
          (message.toList.take 50).asString
      service ++ "::" ++ part
    | _, _ => "unknown"

/-! ## Action executor (src/executor.py)

Actions reach the executor as plain dicts, modelled like payloads. Each
handler prints, mints identifiers, and returns a result dict; of the
result dict only the `status` field and the `error` field carry
information any claim depends on, so results are modelled as those two
fields (the minted IDs and timestamps are elided side outputs). The only
operation inside a handler that can raise on a well-formed dict input is
the string join over a params field that is not a string or a list of
strings (Python TypeError); that is modelled by `pyJoinStrs`. -/

/-- An action as received by the executor: a dict. -/
def ActionDict := List (String × Val)

instance : DecidableEq ActionDict := inferInstanceAs (DecidableEq (List (String × Val)))

/-- Models a result dict: its status plus the error description field
present on failure. -/
structure ResultD where
  status : String
  error : Option String
deriving DecidableEq, Repr

/-- Models Python `", ".join(v)`: succeeds on a list of strings (and on
a string, whose characters are joined), raises TypeError otherwise. -/
def pyJoinStrs : Val → Except String String
  | Val.strList xs => Except.ok (String.intercalate ", " xs)
  | Val.str s => Except.ok (String.intercalate ", " (s.toList.map (fun c => String.mk [c])))
  | _ => Except.error "TypeError: can only join an iterable of strings"

/-- The action kind, when the dict's type field holds a string. -/
def actionKind (a : ActionDict) : Option String :=
  match pyGet a "type" with
  | some (Val.str s) => some s
  | _ => none

/-- The nine kinds with a dedicated handler (executors dict, lines 35-45). -/
def knownKinds : List String :=
  ["create_task", "notify", "escalate", "schedule", "monitor",
   "block_deployment", "aggregate", "auto_fix", "request_review"]

/-- Does the dispatch of execute find a dedicated handler? -/
def kindIsKnown (a : ActionDict) : Bool :=
  knownKinds.any (fun k => actionKind a = some k)

/-- A handler body that joins the given value and reports success. -/
def joinAttempt (v : Val) : Except String ResultD :=
  (pyJoinStrs v).map (fun _ => ⟨"success", none⟩)

/-- The dispatched handler's outcome for an action (executor.py handler
bodies, lines 61-240): ok with the handler's returned status, or error
when the handler raises. Handlers whose body performs no fallible
operation always succeed; the unknown-kind fallback returns the skipped
status. -/
def handlerRun (a : ActionDict) : Except String ResultD :=
  let k := actionKind a
  if k = some "create_task" then joinAttempt (pyGetD a "labels" (Val.strList []))
  else if k = some "notify" then Except.ok ⟨"success", none⟩
  else if k = some "escalate" then Except.ok ⟨"success", none⟩
  else if k = some "schedule" then Except.ok ⟨"success", none⟩
  else if k = some "monitor" then joinAttempt (pyGetD a "metrics" (Val.strList []))
  else if k = some "block_deployment" then
    joinAttempt (pyGetD a "affected_services" (Val.strList []))
  else if k = some "aggregate" then Except.ok ⟨"success", none⟩
  else if k = some "auto_fix" then Except.ok ⟨"success", none⟩
  else if k = some "request_review" then
    joinAttempt (pyGetD a "reviewers" (Val.strList []))
  else Except.ok ⟨"skipped", none⟩

/-- Did the dispatched handler return without raising? -/
def handlerOk (a : ActionDict) : Bool :=
  match handlerRun a with
  | Except.ok _ => true
  | Except.error _ => false

/-- One audit-trail entry (log_execution, executor.py lines 242-255). -/
structure LogEntry where
  action : ActionDict
  result : ResultD
  status : String
deriving DecidableEq

/-- Executor state: the audit trail and the two counters. -/
structure ExecState where
  execution_log : List LogEntry
  task_counter : Nat
  notification_counter : Nat
deriving DecidableEq

/-- The freshly constructed executor. -/
def initExecState : ExecState := ⟨[], 0, 0⟩

/-- The counter increments a handler performs before anything that can
raise (first statements of the create_task and notify handlers). -/
def bumpCounters (st : ExecState) (a : ActionDict) : ExecState :=
  if actionKind a = some "create_task" then
    { st with task_counter := st.task_counter + 1 }
  else if actionKind a = some "notify" then
    { st with notification_counter := st.notification_counter + 1 }
  else st

/-- The log entry execute appends for an action. -/
def entryOf (a : ActionDict) : LogEntry :=
  match handlerRun a with
  | Except.ok r => ⟨a, r, "success"⟩
  | Except.error e => ⟨a, ⟨"failed", some e⟩, "failed"⟩

/-- Execute a single action (executor.py lines 23-59): dispatch on the
type field, catch any exception the handler raised and convert it to a
failed result, and log the call with status success exactly when the
handler returned (whatever status it returned, including skipped). -/
def execute (st : ExecState) (a : ActionDict) : ExecState × ResultD :=
  let st1 := bumpCounters st a
  match handlerRun a with
  | Except.ok r =>
    ({ st1 with execution_log := st1.execution_log ++ [⟨a, r, "success"⟩] }, r)
  | Except.error e =>
    ({ st1 with execution_log := st1.execution_log ++ [⟨a, ⟨"failed", some e⟩, "failed"⟩] },
     ⟨"failed", some e⟩)

/-- Execute a sequence of actions, threading the executor state. -/
def runAll (st : ExecState) (as : List ActionDict) : ExecState :=
  as.foldl (fun s a => (execute s a).1) st

/-- Execution statistics record (get_execution_stats result fields). -/
structure ExecStats where
  total_executions : Nat
  successful : Nat
  failed : Nat
  tasks_created : Nat
  notifications_sent : Nat
deriving DecidableEq, Repr

/-- Get execution statistics (executor.py lines 257-269). -/
def get_execution_stats (st : ExecState) : ExecStats :=
  let total := st.execution_log.length
  let successful := (st.execution_log.filter (fun log => log.status = "success")).length
  let failed := total - successful
  { total_executions := total
    successful := successful
    failed := failed
    tasks_created := st.task_counter
    notifications_sent := st.notification_counter }

/-! ## Concrete scenario inputs used by the spec's testable properties -/

/-- Scenario A payload: the error event of the spec's test scenarios. -/
def payloadA : Payload :=
  [("message", Val.str "Database connection timeout"),
   ("severity", Val.str "critical"),
   ("service", Val.str "api-gateway")]

/-- Scenario B payload: the security alert of the spec's test scenarios. -/
def payloadB : Payload :=
  [("alert_type", Val.str "dependency_vulnerability"),
   ("details", Val.str "CVE-2024-1234")]

/-- An action dict whose type is not one of the nine known kinds. -/
def actUnknown : ActionDict := [("type", Val.str "dance")]

/-- A create_task action whose labels field is not joinable: its handler
raises a TypeError after incrementing the task counter. -/
def actBadLabels : ActionDict :=
  [("type", Val.str "create_task"), ("labels", Val.num 3)]

/-- A notify action with all defaults: its handler always succeeds. -/
def actNotify : ActionDict := [("type", Val.str "notify")]

/-- A payload whose alert_type holds a list: hashing it in the auto-fix
eligibility check makes the plan call raise TypeError. -/
def payloadListAlert : Payload := [("alert_type", Val.strList ["x"])]

/-- Spec-side formulation (section 4.2 of the spec): the portion of the
message preceding the first colon, phrased directly as a character scan
rather than via the split the source performs. -/
def beforeFirstColon (message : String) : String :=
  (message.toList.takeWhile (fun c => c ≠ ':')).asString

/-! ## Theorems -/

/-- C2: For event_type security_alert with payload alert_type
dependency_vulnerability / details CVE-2024-1234, priority 10 and memory
count 1, the plan consists of create_task, notify, block_deployment and
escalate actions (the security_alert escalation predicate is always
true; auto-fix stays off because the count is below 2). -/
theorem claim_C2 :
    (plan "security_alert" payloadB 10 1).map (fun a => a.type) =
      [ActionType.create_task, ActionType.notify, ActionType.block_deployment,
       ActionType.escalate] := by
  decide

/-- C5: For event_type error with the scenario A payload, priority 10 and
memory count 1, the plan carries a create_task action with severity label
critical assigned to oncall_engineer and a notify action on channel
urgent mentioning oncall, and no escalate action (count below 3). -/
theorem claim_C5 :
    ((plan "error" payloadA 10 1).filter
        (fun a => a.type == ActionType.create_task)).map
        (fun a => (a.priority, pyGet a.params "assignee")) =
      [("critical", some (Val.str "oncall_engineer"))] ∧
    ((plan "error" payloadA 10 1).filter (fun a => a.type == ActionType.notify)).map
        (fun a => (pyGet a.params "channel", pyGet a.params "mention")) =
      [(some (Val.str "urgent"), some (Val.str "oncall"))] ∧
    ((plan "error" payloadA 10 1).map (fun a => a.type)).contains
        ActionType.escalate = false := by
  refine ⟨by decide, by decide, by decide⟩

/-- C7 counterexample: the claim asserts that every priority scorer in
the repository is total, but the full orchestrator's scorer (agent.py)
parses the payload string without a handler, so an unparsable payload
makes it raise instead of returning a value (modelled by none), while
the claim demands the score of the empty mapping (10 for an error). -/
theorem claim_C7_counterexample :
    calculate_priority_full "error" none = none ∧
    calculate_priority "error" (some []) = 10 := by
  refine ⟨rfl, by decide⟩

/-- C7 amended: the simplified orchestrator's scorer (agent_simple.py) is
total and treats an unparsable payload exactly like an empty mapping;
the full orchestrator's scorer (agent.py) agrees with it on every
payload that parses but propagates the parse failure on one that does
not, producing no score. -/
theorem claim_C7 (event_type : String) (p : Payload) :
    calculate_priority event_type none = calculate_priority event_type (some []) ∧
    calculate_priority_full event_type (some p) =
      some (calculate_priority event_type (some p)) ∧
    calculate_priority_full event_type none = none :=
  ⟨rfl, rfl, rfl⟩

/-- C7 amended witness: the scorer split instantiated at the error type
and the scenario B payload. -/
theorem claim_C7_witness :
    calculate_priority "error" none = calculate_priority "error" (some []) ∧
    calculate_priority_full "error" (some payloadB) =
      some (calculate_priority "error" (some payloadB)) ∧
    calculate_priority_full "error" none = none :=
  claim_C7 "error" payloadB

/-- C1 counterexample: for event_type issue_created with memory count 3
(and maximal priority), the plan contains no aggregate action at all:
issue_created has no rule entry, so planning returns the default review
task and never reaches the aggregation rule. -/
theorem claim_C1_counterexample :
    ((plan "issue_created" [] 10 3).map (fun a => a.type)).contains
      ActionType.aggregate = false := by
  decide

/-- C4: for every event type that has a rule entry with some priority
threshold, planning with any priority strictly below that threshold
returns the empty action list, whatever the payload and memory count. -/
theorem claim_C4 (event_type : String) (r : Rule) (event_data : Payload)
    (priority : Int) (event_count : Nat)
    (hr : action_rules event_type = some r)
    (hp : priority < r.priority_threshold) :
    plan event_type event_data priority event_count = [] := by
  unfold plan
  rw [hr]
  simp [hp]

/-- C4 witness: the error rule has threshold 7, and an error event of
priority 6 yields the empty plan. -/
theorem claim_C4_witness :
    action_rules "error" = some ⟨7, ["create_task", "notify"], fun count => count ≥ 3⟩ ∧
    (6 : Int) < 7 ∧
    plan "error" [] 6 1 = [] :=
  ⟨rfl, by norm_num, claim_C4 "error" _ [] 6 1 rfl (by norm_num)⟩

/-- C3 counterexample: the claim quantifies over the payload, but at a
payload whose alert_type holds a list the plan call for an error event
of priority 10 and memory count 3 raises TypeError inside the auto-fix
eligibility check and returns no action list at all, so it does not
include an escalate action. -/
theorem claim_C3_counterexample :
    planExc "error" payloadListAlert 10 3 =
      Except.error "TypeError: unhashable type: \x27list\x27" := rfl

/-- C3 amended: for an error event of priority 10 and any payload on
which plan returns (its alert_type/error_type is not a list, otherwise
the auto-fix eligibility check raises TypeError), the plan at memory
count 3 contains an escalate action whose escalate_to parameter is
engineering_manager, and the plan at memory count 2 contains no
escalate action. -/
theorem claim_C3_amended (p : Payload) (h : autoFixRaises p = false) :
    planExc "error" p 10 3 = Except.ok (plan "error" p 10 3) ∧
    planExc "error" p 10 2 = Except.ok (plan "error" p 10 2) ∧
    ((plan "error" p 10 3).map (fun a => a.type)).contains ActionType.escalate = true ∧
    ((plan "error" p 10 3).filter (fun a => a.type == ActionType.escalate)).map
        (fun a => pyGet a.params "escalate_to") =
      [some (Val.str "engineering_manager")] ∧
    ((plan "error" p 10 2).map (fun a => a.type)).contains ActionType.escalate = false := by
  have e3 : planExc "error" p 10 3 =
      if autoFixRaises p then Except.error "TypeError: unhashable type: \x27list\x27"
      else Except.ok (plan "error" p 10 3) := rfl
  have e2 : planExc "error" p 10 2 =
      if autoFixRaises p then Except.error "TypeError: unhashable type: \x27list\x27"
      else Except.ok (plan "error" p 10 2) := rfl
  have h3 : plan "error" p 10 3 =
      [plan_task_creation "error" p 10, plan_notification "error" p 10,
       plan_escalation "error" p 3] ++
      (if can_auto_fix "error" p 3 then [plan_auto_fix "error" p] else []) := rfl
  have h2 : plan "error" p 10 2 =
      [plan_task_creation "error" p 10, plan_notification "error" p 10] ++
      (if can_auto_fix "error" p 2 then [plan_auto_fix "error" p] else []) := rfl
  refine ⟨?_, ?_, ?_, ?_, ?_⟩
  · rw [e3, if_neg (by simp [h])]
  · rw [e2, if_neg (by simp [h])]
  · rw [h3]
    cases can_auto_fix "error" p 3 <;> rfl
  · rw [h3]
    cases can_auto_fix "error" p 3 <;> rfl
  · rw [h2]
    cases can_auto_fix "error" p 2 <;> rfl

/-- C3 amended witness: the escalation dichotomy instantiated at the
scenario A error payload, whose auto-fix check does not raise. -/
theorem claim_C3_amended_witness :
    autoFixRaises payloadA = false ∧
    (planExc "error" payloadA 10 3 = Except.ok (plan "error" payloadA 10 3) ∧
     planExc "error" payloadA 10 2 = Except.ok (plan "error" payloadA 10 2) ∧
     ((plan "error" payloadA 10 3).map (fun a => a.type)).contains
        ActionType.escalate = true ∧
     ((plan "error" payloadA 10 3).filter
        (fun a => a.type == ActionType.escalate)).map
        (fun a => pyGet a.params "escalate_to") =
      [some (Val.str "engineering_manager")] ∧
     ((plan "error" payloadA 10 2).map (fun a => a.type)).contains
        ActionType.escalate = false) :=
  ⟨by decide, claim_C3_amended payloadA (by decide)⟩

/-- C1 amended: for test_failure events with memory count at least 3,
priority meeting the type's threshold 6, and a payload on which plan
returns (its alert_type/error_type is not a list, otherwise the
auto-fix eligibility check raises TypeError), plan returns normally and
its result carries exactly one aggregate action whose params record the
create_epic proposal and the event count, whichever other rules fire;
for issue_created, which has no rule entry, planning always returns
normally with the single default review create_task and never emits an
aggregate, whatever the payload, priority and count. -/
theorem claim_C1_amended (p : Payload) (priority : Int) (count : Nat)
    (hpr : 6 ≤ priority) (hc : 3 ≤ count) (hfix : autoFixRaises p = false) :
    (planExc "test_failure" p priority count =
        Except.ok (plan "test_failure" p priority count) ∧
      ((plan "test_failure" p priority count).filter
          (fun a => a.type == ActionType.aggregate)).map
          (fun a => (pyGet a.params "action", pyGet a.params "count")) =
        [(some (Val.str "create_epic"), some (Val.num (count : Int)))]) ∧
    (∀ (q : Payload) (pr : Int) (c : Nat),
      planExc "issue_created" q pr c = Except.ok (plan "issue_created" q pr c) ∧
      (plan "issue_created" q pr c).map (fun a => a.type) =
        [ActionType.create_task]) := by
  have eTF : planExc "test_failure" p priority count =
      if priority < (6 : Int) then Except.ok [] else
      if autoFixRaises p then Except.error "TypeError: unhashable type: \x27list\x27"
      else Except.ok (plan "test_failure" p priority count) := rfl
  have hplan : plan "test_failure" p priority count =
      if priority < (6 : Int) then [] else
        [plan_task_creation "test_failure" p priority] ++
        (if decide (count ≥ 5) then [plan_escalation "test_failure" p count] else []) ++
        (if count ≥ 3 ∧ ("test_failure" = "issue_created" ∨ "test_failure" = "test_failure") then
          [plan_aggregation "test_failure" p count] else []) ++
        (if can_auto_fix "test_failure" p count then [plan_auto_fix "test_failure" p] else []) := rfl
  refine ⟨⟨?_, ?_⟩, ?_⟩
  · rw [eTF, if_neg (not_lt.mpr hpr), if_neg (by simp [hfix])]
  · rw [hplan, if_neg (not_lt.mpr hpr)]
    by_cases h5 : count ≥ 5 <;>
      cases hfx : can_auto_fix "test_failure" p count <;>
        simp [h5, hfx, hc, plan_task_creation, plan_escalation, plan_aggregation,
          plan_auto_fix, pyGet]
  · intro q pr c
    exact ⟨rfl, rfl⟩

/-- C1 amended witness: a test_failure event at priority 8 with count 3
and an empty payload returns normally and carries exactly one aggregate
action proposing an epic over 3 events, while an issue_created event at
the same inputs returns normally with only the default review task. -/
theorem claim_C1_amended_witness :
    (6 : Int) ≤ 8 ∧ 3 ≤ 3 ∧ autoFixRaises [] = false ∧
    planExc "test_failure" [] 8 3 = Except.ok (plan "test_failure" [] 8 3) ∧
    ((plan "test_failure" [] 8 3).filter
        (fun a => a.type == ActionType.aggregate)).map
        (fun a => (pyGet a.params "action", pyGet a.params "count")) =
      [(some (Val.str "create_epic"), some (Val.num 3))] ∧
    planExc "issue_created" [] 8 3 = Except.ok (plan "issue_created" [] 8 3) ∧
    (plan "issue_created" [] 8 3).map (fun a => a.type) =
      [ActionType.create_task] :=
  ⟨by norm_num, by norm_num, by decide,
   (claim_C1_amended [] 8 3 (by norm_num) (by norm_num) (by decide)).1.1,
   (claim_C1_amended [] 8 3 (by norm_num) (by norm_num) (by decide)).1.2,
   ((claim_C1_amended [] 8 3 (by norm_num) (by norm_num) (by decide)).2 [] 8 3).1,
   ((claim_C1_amended [] 8 3 (by norm_num) (by norm_num) (by decide)).2 [] 8 3).2⟩

/-- The base-priority table only produces values between 3 and 10. -/
theorem priorityBase_bounds (event_type : String) :
    3 ≤ priorityBase event_type ∧ priorityBase event_type ≤ 10 := by
  unfold priorityBase
  split_ifs <;> norm_num

/-- C6: the priority score always lands in 0..10 and equals the fixed
base value of the event type, plus 3 clamped to 10 exactly when the
stringified payload contains an urgency keyword case-insensitively; the
base table is the claimed one, with default 5 for unlisted types. -/
theorem claim_C6 (event_type : String) (data : Option Payload) :
    (0 ≤ calculate_priority event_type data ∧ calculate_priority event_type data ≤ 10) ∧
    calculate_priority event_type data =
      (if urgentKeywordHit ((data.getD []).pyStr) then
        min 10 (priorityBase event_type + 3)
      else priorityBase event_type) ∧
    (priorityBase "error" = 10 ∧ priorityBase "security_alert" = 10 ∧
     priorityBase "test_failure" = 8 ∧ priorityBase "deployment" = 7 ∧
     priorityBase "code_review" = 6 ∧ priorityBase "commit" = 5 ∧
     priorityBase "issue_created" = 4 ∧ priorityBase "file_change" = 3) ∧
    ((["error", "security_alert", "test_failure", "deployment", "code_review",
        "commit", "issue_created", "file_change"].contains event_type) = false →
      priorityBase event_type = 5) := by
  obtain ⟨hb1, hb2⟩ := priorityBase_bounds event_type
  refine ⟨?_, rfl, by decide, ?_⟩
  · simp only [calculate_priority, scoreParsed]
    rw [Int.min_def]
    split_ifs <;> constructor <;> omega
  · intro h
    unfold priorityBase
    split_ifs <;> first | rfl | simp_all

/-- C6 witness: an unlisted event type is not in the table and scores
the default base 5. -/
theorem claim_C6_witness :
    (["error", "security_alert", "test_failure", "deployment", "code_review",
       "commit", "issue_created", "file_change"].contains "zzz") = false ∧
    priorityBase "zzz" = 5 :=
  ⟨by decide, (claim_C6 "zzz" none).2.2.2 (by decide)⟩

/-- The head of a Python split is everything before the first separator. -/
theorem pySplitCh_headD (sep : Char) (l : List Char) :
    (pySplitCh sep l).headD [] = l.takeWhile (fun c => !decide (c = sep)) := by
  induction l with
  | nil => rfl
  | cons c cs ih =>
    unfold pySplitCh
    by_cases h : c = sep
    · simp [h]
    · simp [h]
      simpa using ih

/-- The spec's before-first-colon scan in terms of takeWhile. -/
theorem beforeFirstColon_eq (message : String) :
    beforeFirstColon message =
      (message.toList.takeWhile (fun c => !decide (c = ':'))).asString := by
  unfold beforeFirstColon
  simp [decide_not]

/-- C9: for an error payload that parses to a mapping with string
message and service fields (with their documented defaults), the derived
error signature is the service joined to the portion of the message
preceding the first colon, or to the first 50 characters of the message
when it contains no colon; a payload that does not parse into a mapping
yields exactly the signature unknown. -/
theorem claim_C9 (p : Payload) (message service : String)
    (hm : pyGetD p "message" (Val.str "") = Val.str message)
    (hs : pyGetD p "service" (Val.str "unknown") = Val.str service) :
    extract_error_signature (some p) =
      service ++ "::" ++
        (if message.toList.contains ':' then beforeFirstColon message
         else (message.toList.take 50).asString) ∧
    extract_error_signature none = "unknown" := by
  refine ⟨?_, rfl⟩
  have hred : extract_error_signature (some p) =
      (match pyGetD p "message" (Val.str ""), pyGetD p "service" (Val.str "unknown") with
       | Val.str message, Val.str service =>
         service ++ "::" ++
           (if message.toList.contains ':' then
             ((pySplitCh ':' message.toList).headD []).asString
            else (message.toList.take 50).asString)
       | _, _ => "unknown") := rfl
  rw [hred, hm, hs]
  show service ++ "::" ++
      (if message.toList.contains ':' then
        ((pySplitCh ':' message.toList).headD []).asString
       else (message.toList.take 50).asString) = _
  rw [pySplitCh_headD, beforeFirstColon_eq]

/-- C9 witness: the scenario A error payload parses, its message has no
colon, and its signature is the service joined to the message. -/
theorem claim_C9_witness :
    pyGetD payloadA "message" (Val.str "") = Val.str "Database connection timeout" ∧
    pyGetD payloadA "service" (Val.str "unknown") = Val.str "api-gateway" ∧
    (extract_error_signature (some payloadA) =
      "api-gateway" ++ "::" ++
        (if "Database connection timeout".toList.contains ':' then
          beforeFirstColon "Database connection timeout"
         else ("Database connection timeout".toList.take 50).asString) ∧
    extract_error_signature none = "unknown") :=
  ⟨rfl, rfl, claim_C9 payloadA "Database connection timeout" "api-gateway" rfl rfl⟩

/-- A join-based handler body that returns ok only returns the success
result. -/
theorem joinAttempt_ok (v : Val) (r : ResultD)
    (h : joinAttempt v = Except.ok r) : r = ⟨"success", none⟩ := by
  unfold joinAttempt at h
  cases hv : pyJoinStrs v <;> rw [hv] at h <;> simp [Except.map] at h
  exact h.symm

/-- Every handler that returns does so with status success or skipped. -/
theorem handlerRun_ok_cases (a : ActionDict) (r : ResultD)
    (h : handlerRun a = Except.ok r) :
    r = ⟨"success", none⟩ ∨ r = ⟨"skipped", none⟩ := by
  simp only [handlerRun] at h
  split_ifs at h
  all_goals
    first
      | exact Or.inl (joinAttempt_ok _ _ h)
      | (injection h with h; exact Or.inl h.symm)
      | (injection h with h; exact Or.inr h.symm)

/-- An action whose kind has no dedicated handler falls through to the
unknown-kind fallback, which returns the skipped result. -/
theorem handlerRun_unknown (a : ActionDict) (h : kindIsKnown a = false) :
    handlerRun a = Except.ok ⟨"skipped", none⟩ := by
  unfold kindIsKnown at h
  simp only [knownKinds, List.any_cons, List.any_nil, Bool.or_eq_false_iff,
    decide_eq_false_iff_not] at h
  obtain ⟨h1, h2, h3, h4, h5, h6, h7, h8, h9⟩ := h
  unfold handlerRun
  simp [h1, h2, h3, h4, h5, h6, h7, h8, h9]

/-- The counter bumps never touch the audit trail. -/
theorem bumpCounters_log (st : ExecState) (a : ActionDict) :
    (bumpCounters st a).execution_log = st.execution_log := by
  unfold bumpCounters
  split_ifs <;> rfl

/-- Each execute call appends exactly its own log entry. -/
theorem execute_log (st : ExecState) (a : ActionDict) :
    (execute st a).1.execution_log = st.execution_log ++ [entryOf a] := by
  cases hr : handlerRun a <;> simp [execute, entryOf, hr, bumpCounters_log]

/-- Running a sequence of actions appends their log entries in order. -/
theorem runAll_log (as : List ActionDict) : ∀ st : ExecState,
    (runAll st as).execution_log = st.execution_log ++ as.map entryOf := by
  induction as with
  | nil => intro st; simp [runAll]
  | cons a as ih =>
    intro st
    show (runAll ((execute st a).1) as).execution_log = _
    rw [ih, execute_log]
    simp

/-- A log entry records success exactly when its handler returned. -/
theorem entryOf_status (a : ActionDict) :
    (entryOf a).status = if handlerOk a then "success" else "failed" := by
  unfold entryOf handlerOk
  cases h : handlerRun a <;> simp [h]

/-- Counting success entries over a batch counts the non-raising
handlers. -/
theorem filter_success_entryOf (as : List ActionDict) :
    ((as.map entryOf).filter (fun l => l.status = "success")).length =
      as.countP handlerOk := by
  induction as with
  | nil => rfl
  | cons a as ih =>
    cases h : handlerOk a <;>
      simp [List.filter_cons, List.countP_cons, entryOf_status, h, ih]

/-- A batch splits into its non-raising and raising actions. -/
theorem countP_handlerOk_split (as : List ActionDict) :
    as.length = as.countP handlerOk + as.countP (fun a => !handlerOk a) := by
  rw [List.length_eq_countP_add_countP handlerOk as]
  congr 1
  apply List.countP_congr
  intro a _
  cases handlerOk a <;> simp

end Synaptix
